import Mathlib

/-!
Verification development for the `symphony-periodic` analysis repository.

The repository consists of research notebooks and shell sweep scripts:
  * `analyses/rebuttal_experiments/resolution_random_points.ipynb` — a small
    gradient-descent routine (`optimize_coeffs`) fitting spherical-harmonic
    coefficients to a target distribution on the sphere;
  * a temperature-ablation notebook and an OpenBabel metrics notebook that
    aggregate validity/uniqueness metrics into DataFrames, plots and LaTeX
    tables;
  * `sweep_scripts/tetris.sh` and a learning-rates sweep script that launch
    training runs of the external `symphony` package over hyperparameter grids.

External libraries (jax, optax, e3nn, the `symphony` package, the
`analyses.metrics` and `helpers` modules) are modelled as abstract function
environments; the notebook and script glue code is embedded faithfully.
-/

/-! ## Part 1: the `optimize_coeffs` training loop

Shallow embedding of the notebook cell

```python
def optimize_coeffs(true_signal, lmax, position_channels, res_alpha, res_beta,
                    num_training_steps):
    true_dist = helpers.average_target_distributions(true_signal, res_alpha, res_beta)
    rng = jax.random.PRNGKey(0)
    irreps = e3nn.s2_irreps(lmax, p_val=1, p_arg=-1)
    coeffs = e3nn.normal(irreps, rng, (position_channels, 1))
    tx = optax.adam(1e-3)
    opt_state = tx.init(coeffs)

    def loss_fn(coeffs):
        log_predicted_dist = models.log_coeffs_to_logits(coeffs, res_beta=res_beta,
                                                         res_alpha=res_alpha, num_radii=1)
        return loss.kl_divergence_on_spheres(true_dist, log_predicted_dist)

    @jax.jit
    def train_step(coeffs, opt_state):
        loss_value, grads = jax.value_and_grad(loss_fn)(coeffs)
        grad_norms = jnp.linalg.norm(grads.array)
        updates, opt_state = tx.update(grads, opt_state, coeffs)
        coeffs = optax.apply_updates(coeffs, updates)
        return coeffs, opt_state, loss_value, grad_norms

    training_dict = {}
    for step in range(num_training_steps):
        coeffs, opt_state, loss_value, grad_norms = train_step(coeffs, opt_state)
        if step % 5000 == 0:
            print(...)          # side effect only, not modelled
        if step % 10 == 0:
            step_rng = jax.random.fold_in(rng, step)
            dist = helpers.coeffs_to_distribution(coeffs, res_alpha, res_beta)
            mean_dist, std_dist = helpers.rmse_of_samples(dist, random_points, step_rng,
                                                          num_samples=1000)
            training_dict[step] = dict(coeffs=coeffs.array, loss_value=..., grad_norms=...,
                                       mean_dist=..., std_dist=...)
    return training_dict
```

`random_points` is a notebook-level global captured by the closure; it is an
explicit parameter `pts` here.  Scalars (loss values, norms, distances) are
modelled as rationals; `jax.jit` is semantically the identity and the
`print` every 5000 steps is a side effect with no influence on the result.
The Python `dict` over increasing integer keys is a list of key/record
pairs in insertion order.
-/

/-- An `optax` gradient transformation: `init` builds the optimizer state from the
initial parameters, `update grads state params` returns `(updates, new_state)`. -/
structure GradientTransformation (Coeffs OptState : Type) where
  init : Coeffs → OptState
  update : Coeffs → OptState → Coeffs → Coeffs × OptState

/-- Abstract environment of external functions used by `optimize_coeffs`:
`helpers.average_target_distributions`, `jax.random.PRNGKey`,
`jax.random.fold_in`, `e3nn.s2_irreps`, `e3nn.normal`, `optax.adam`,
`optax.apply_updates`, `models.log_coeffs_to_logits`,
`loss.kl_divergence_on_spheres`, `jax.grad`, `jnp.linalg.norm`, `.array`,
`helpers.coeffs_to_distribution` and `helpers.rmse_of_samples`. -/
structure SphereEnv (Signal Dist Irreps Coeffs Arr Points Rng OptState : Type) where
  averageTargetDistributions : Signal → ℕ → ℕ → Dist
  prngKey : ℕ → Rng
  foldIn : Rng → ℕ → Rng
  s2Irreps : ℕ → Irreps
  normal : Irreps → Rng → ℕ → Coeffs
  adam : ℚ → GradientTransformation Coeffs OptState
  applyUpdates : Coeffs → Coeffs → Coeffs
  logCoeffsToLogits : Coeffs → ℕ → ℕ → ℕ → Dist
  klDivergenceOnSpheres : Dist → Dist → ℚ
  grad : (Coeffs → ℚ) → Coeffs → Coeffs
  normOf : Coeffs → ℚ
  arr : Coeffs → Arr
  coeffsToDistribution : Coeffs → ℕ → ℕ → Dist
  rmseOfSamples : Dist → Points → Rng → ℕ → ℚ × ℚ

/-- One entry of `training_dict`: `coeffs.array`, the loss value, the gradient
norm and the mean/std RMSE of samples to the nearest target point. -/
structure TrainRecord (Arr : Type) where
  coeffs : Arr
  lossValue : ℚ
  gradNorms : ℚ
  meanDist : ℚ
  stdDist : ℚ
deriving DecidableEq

section SphereOpt

variable {Signal Dist Irreps Coeffs Arr Points Rng OptState : Type}

/-- The closure `loss_fn`: KL divergence between the target distribution and
the distribution induced by the coefficients via `log_coeffs_to_logits`
(called with `res_beta`, `res_alpha`, `num_radii=1`). -/
def loss_fn (env : SphereEnv Signal Dist Irreps Coeffs Arr Points Rng OptState)
    (true_dist : Dist) (res_alpha res_beta : ℕ) : Coeffs → ℚ :=
  fun coeffs =>
    env.klDivergenceOnSpheres true_dist (env.logCoeffsToLogits coeffs res_beta res_alpha 1)

/-- Result of one `train_step` call. -/
structure StepResult (Coeffs OptState : Type) where
  coeffs : Coeffs
  optState : OptState
  lossValue : ℚ
  gradNorms : ℚ

/-- The closure `train_step` (the `tx` in scope is `optax.adam(1e-3)`):
`jax.value_and_grad(loss_fn)` yields the loss at the current coefficients and
its gradient; `tx.update` and `optax.apply_updates` produce the new
coefficients and optimizer state. -/
def train_step (env : SphereEnv Signal Dist Irreps Coeffs Arr Points Rng OptState)
    (true_dist : Dist) (res_alpha res_beta : ℕ)
    (coeffs : Coeffs) (opt_state : OptState) : StepResult Coeffs OptState :=
  let loss_value := loss_fn env true_dist res_alpha res_beta coeffs
  let grads := env.grad (loss_fn env true_dist res_alpha res_beta) coeffs
  let grad_norms := env.normOf grads
  let us := (env.adam (1 / 1000)).update grads opt_state coeffs
  ⟨env.applyUpdates coeffs us.1, us.2, loss_value, grad_norms⟩

/-- The body of `for step in range(num_training_steps)`: run `train_step`,
and every 10 steps append a `training_dict` entry computed with
`step_rng = fold_in(rng, step)` and 1000 samples against `pts`
(the notebook global `random_points`). -/
def optStep (env : SphereEnv Signal Dist Irreps Coeffs Arr Points Rng OptState)
    (pts : Points) (true_dist : Dist) (rng : Rng) (res_alpha res_beta : ℕ)
    (st : (Coeffs × OptState) × List (ℕ × TrainRecord Arr)) (step : ℕ) :
    (Coeffs × OptState) × List (ℕ × TrainRecord Arr) :=
  let res := train_step env true_dist res_alpha res_beta st.1.1 st.1.2
  let dict :=
    if step % 10 = 0 then
      let step_rng := env.foldIn rng step
      let dist := env.coeffsToDistribution res.coeffs res_alpha res_beta
      let ms := env.rmseOfSamples dist pts step_rng 1000
      st.2 ++ [(step, ⟨env.arr res.coeffs, res.lossValue, res.gradNorms, ms.1, ms.2⟩)]
    else st.2
  ((res.coeffs, res.optState), dict)

/-- Function `optimize_coeffs`: returns `training_dict` as a list of key/record pairs
in insertion order. -/
def optimize_coeffs (env : SphereEnv Signal Dist Irreps Coeffs Arr Points Rng OptState)
    (pts : Points) (true_signal : Signal)
    (lmax position_channels res_alpha res_beta num_training_steps : ℕ) :
    List (ℕ × TrainRecord Arr) :=
  let true_dist := env.averageTargetDistributions true_signal res_alpha res_beta
  let rng := env.prngKey 0
  let irreps := env.s2Irreps lmax
  let coeffs := env.normal irreps rng position_channels
  let tx := env.adam (1 / 1000)
  let opt_state := tx.init coeffs
  ((List.range num_training_steps).foldl
    (optStep env pts true_dist rng res_alpha res_beta) ((coeffs, opt_state), [])).2

/-- The `(coeffs, opt_state)` pair held by the loop just before iteration
`step` (so `trainStateAt … 0` is the freshly initialized state). -/
def trainStateAt (env : SphereEnv Signal Dist Irreps Coeffs Arr Points Rng OptState)
    (true_signal : Signal) (lmax position_channels res_alpha res_beta : ℕ) :
    ℕ → Coeffs × OptState
  | 0 =>
    let coeffs := env.normal (env.s2Irreps lmax) (env.prngKey 0) position_channels
    (coeffs, (env.adam (1 / 1000)).init coeffs)
  | step + 1 =>
    let prev := trainStateAt env true_signal lmax position_channels res_alpha res_beta step
    let res := train_step env (env.averageTargetDistributions true_signal res_alpha res_beta)
      res_alpha res_beta prev.1 prev.2
    (res.coeffs, res.optState)

/-- The `training_dict` entry that iteration `step` would record (recorded only
when `step % 10 == 0`): the coefficients after the update, the loss and
gradient-norm of the step, and the RMSE evaluation with rng `fold_in(PRNGKey 0, step)`. -/
def recordAt (env : SphereEnv Signal Dist Irreps Coeffs Arr Points Rng OptState)
    (pts : Points) (true_signal : Signal)
    (lmax position_channels res_alpha res_beta : ℕ) (step : ℕ) : TrainRecord Arr :=
  let prev := trainStateAt env true_signal lmax position_channels res_alpha res_beta step
  let res := train_step env (env.averageTargetDistributions true_signal res_alpha res_beta)
    res_alpha res_beta prev.1 prev.2
  let step_rng := env.foldIn (env.prngKey 0) step
  let dist := env.coeffsToDistribution res.coeffs res_alpha res_beta
  let ms := env.rmseOfSamples dist pts step_rng 1000
  ⟨env.arr res.coeffs, res.lossValue, res.gradNorms, ms.1, ms.2⟩

end SphereOpt

/-! ## Part 2: the shell sweep scripts

`sweep_scripts/tetris.sh` launches, in nested `for` loops over
`model in "nequip"`, `l in 1 2 3 4 5`, `c in 64`, `i in 2`, a background
(`&`) run

```bash
CUDA_VISIBLE_DEVICES="$((l-1))" python -m symphony --config=configs/tetris/"$model".py ...
```

The learning-rates sweep script loops over `schedule in constant sgdr`,
`l in 2`, `c in 32`, `i in 4` and launches, sequentially, a `mace` run and an
`e3schnet` run, each with `CUDA_VISIBLE_DEVICES=6` and each followed by
`|| break 10`; since the nesting depth is 4, a nonzero exit status exits all
enclosing loops and hence ends the script.
-/

/-- One `python -m symphony` launch as configured by a sweep script. -/
structure SymphonyLaunch where
  config : String
  schedule : Option String
  maxEll : ℕ
  numChannels : ℕ
  numInteractions : ℕ
  pit : Option String
  fait : Option String
  cudaDevice : ℕ
  background : Bool
deriving DecidableEq

/-- Loop `for model in "nequip"` in `tetris.sh`. -/
def tetrisModels : List String := ["nequip"]

/-- Loop `for l in 1 2 3 4 5` in `tetris.sh`. -/
def tetrisEllValues : List ℕ := [1, 2, 3, 4, 5]

/-- Loop `for c in 64` in `tetris.sh`. -/
def tetrisChannelValues : List ℕ := [64]

/-- Loop `for i in 2` in `tetris.sh`. -/
def tetrisInteractionValues : List ℕ := [2]

/-- The launches of `tetris.sh`, in loop order: device `l-1`, backgrounded. -/
def tetrisLaunches : List SymphonyLaunch :=
  tetrisModels.flatMap fun model =>
    tetrisEllValues.flatMap fun l =>
      tetrisChannelValues.flatMap fun c =>
        tetrisInteractionValues.map fun i =>
          { config := "configs/tetris/" ++ model ++ ".py"
            schedule := none
            maxEll := l
            numChannels := c
            numInteractions := i
            pit := none
            fait := none
            cudaDevice := l - 1
            background := true }

/-- Loop `for schedule in constant sgdr` in the learning-rates sweep script. -/
def lrSchedules : List String := ["constant", "sgdr"]

/-- Loop `for l in 2` in the learning-rates sweep script. -/
def lrEllValues : List ℕ := [2]

/-- Loop `for c in 32` in the learning-rates sweep script. -/
def lrChannelValues : List ℕ := [32]

/-- Loop `for i in 4` in the learning-rates sweep script. -/
def lrInteractionValues : List ℕ := [4]

/-- The two config files launched in the innermost loop body, in order. -/
def lrConfigs : List String := ["configs/qm9/mace.py", "configs/qm9/e3schnet.py"]

/-- The launches of the learning-rates sweep script, in loop order: every run
on device 6, sequential (not backgrounded). -/
def learningRatesLaunches : List SymphonyLaunch :=
  lrSchedules.flatMap fun schedule =>
    lrEllValues.flatMap fun l =>
      lrChannelValues.flatMap fun c =>
        lrInteractionValues.flatMap fun i =>
          lrConfigs.map fun cfg =>
            { config := cfg
              schedule := some schedule
              maxEll := l
              numChannels := c
              numInteractions := i
              pit := none
              fait := none
              cudaDevice := 6
              background := false }

/-- Modelled from the spec: the repository launches training runs "across
hyperparameter grids (… focus/position-inverse-temperature)", but the sweep
script looping over focus- and position-inverse-temperature values is not
among the files available here.  The grid values are those the
temperature-ablation notebook reads back. -/
def temperaturePitValues : List String := ["0.01", "0.1", "1.0", "10.0", "100.0"]

/-- Modelled from the spec: the focus-inverse-temperature grid of the missing
temperature sweep script. -/
def temperatureFaitValues : List String := ["0.01", "0.1", "1.0", "10.0", "100.0"]

/-- Modelled from the spec: the launches of the missing temperature sweep
script, looping over position- and focus-inverse-temperature values. -/
def temperatureSweepLaunches : List SymphonyLaunch :=
  temperaturePitValues.flatMap fun p =>
    temperatureFaitValues.map fun f =>
      { config := "configs/qm9/e3schnet_and_nequip.py"
        schedule := none
        maxEll := 5
        numChannels := 64
        numInteractions := 3
        pit := some p
        fait := some f
        cudaDevice := 0
        background := false }

/-- Sequential execution of a launch list where each launch is followed by
`|| break 10` under loop nesting depth at most 10 (bash exits all enclosing
loops): the launches actually executed are the prefix of the list up to and
including the first launch that `fails`. -/
def runWithBreakAll (fails : SymphonyLaunch → Bool) :
    List SymphonyLaunch → List SymphonyLaunch
  | [] => []
  | L :: Ls => if fails L then [L] else L :: runWithBreakAll fails Ls

/-- Execution of the learning-rates sweep script given which launches exit
with nonzero status. -/
def runLearningRatesSweep (fails : SymphonyLaunch → Bool) : List SymphonyLaunch :=
  runWithBreakAll fails learningRatesLaunches

/-- Execution of `tetris.sh`: every launch is started in the background with
`&`, so its exit status is never consulted and every grid point is launched. -/
def runTetrisSweep (_fails : SymphonyLaunch → Bool) : List SymphonyLaunch :=
  tetrisLaunches

/-- A concrete failure pattern: exactly the first launch of the learning-rates
sweep (schedule `constant`, config `mace`) exits with nonzero status. -/
def failFirstLaunch : SymphonyLaunch → Bool := fun L =>
  L.config == "configs/qm9/mace.py" && L.schedule == some "constant"

/-! ## Part 3: the metrics notebooks

The temperature-ablation notebook builds `generated_paths` from a path
template over `pit`/`fait` grids, skipping paths that do not exist, loads
molecules per setting, and accumulates one row `(pit, fait, validity,
uniqueness)` per setting with at least one valid molecule; a later cell
filters `fait == "1.0"` and plots `validity * 100` against
`uniqueness * 100`.

The OpenBabel notebook loads molecules for five configured models and prints
a LaTeX validity table and a LaTeX uniqueness table, each value rescaled by
100 and rendered with two decimal places (`f"x:.2f"` via `applymap`; the
uniqueness table additionally applies `round(2)` first).

The metric functions (`get_all_molecules`, `get_all_valid_molecules`,
`compute_validity`, `compute_uniqueness` and their OpenBabel variants, from
`analyses.metrics`) wrap external cheminformatics libraries and are abstract
here.  Metric fractions are rationals; the two-decimal rendering of a value
`x` is modelled as rounding to the nearest multiple of `1/100`.
-/

/-- The numeric value shown by a two-decimal rendering such as `round(2)` or
`f"x:.2f"`: `x` rounded to the nearest hundredth. -/
def roundToCents (x : ℚ) : ℚ := (round (100 * x) : ℚ) / 100

/-- Abstract metric functions from `analyses.metrics` used by the
temperature-ablation notebook. -/
structure MetricsEnv (Molecule : Type) where
  getAllMolecules : String → List Molecule
  getAllValidMolecules : List Molecule → List Molecule
  computeValidity : List Molecule → List Molecule → ℚ
  computeUniqueness : List Molecule → ℚ

/-- Loop `for pit in ["0.01", "0.1", "1.0", "10.0", "100.0"]` in the
temperature-ablation notebook. -/
def ablationPits : List String := ["0.01", "0.1", "1.0", "10.0", "100.0"]

/-- Loop `for fait in ["0.01", "0.1", "1.0", "10.0", "100.0"]` in the
temperature-ablation notebook. -/
def ablationFaits : List String := ["0.01", "0.1", "1.0", "10.0", "100.0"]

/-- Path `template.format(pit=pit, fait=fait)`: the molecule directory for one
`(pit, fait)` setting. -/
def ablationTemplate (pit fait : String) : String :=
  "/Users/ameyad/Documents/spherical-harmonic-net/analyses/analysed_workdirs/qm9_bessel_embedding_attempt6_edm_splits_iclr2024_submission/e3schnet_and_nequip/interactions=3/l=5/position_channels=2/channels=64/fait="
    ++ fait ++ "/pit=" ++ pit ++ "/step=9930000_res_alpha=359_res_beta=180/molecules"

/-- The `(pit, fait)` settings enumerated by the nested loops, in order. -/
def ablationGrid : List (String × String) :=
  ablationPits.flatMap fun pit => ablationFaits.map fun fait => (pit, fait)

/-- Dictionary `generated_paths`: the settings whose directory exists
(`if not os.path.exists(path): continue`), keyed by `(pit, fait)`. -/
def generatedPathsKeys (pathExists : String → Bool) : List (String × String) :=
  ablationGrid.filter fun pf => pathExists (ablationTemplate pf.1 pf.2)

/-- One row of `all_results_df`. -/
structure TempRow where
  pit : String
  fait : String
  validity : ℚ
  uniqueness : ℚ
deriving DecidableEq

/-- DataFrame `all_results_df`: for each loaded setting, `molecules` is the valid subset
of `get_all_molecules(path)`; settings with `len(molecules) == 0` are skipped
(`continue`), the rest contribute one row with
`compute_validity(all_generated_molecules[model], molecules)` and
`compute_uniqueness(molecules)`. -/
def allResultsDf {Molecule : Type} (env : MetricsEnv Molecule)
    (pathExists : String → Bool) : List TempRow :=
  (generatedPathsKeys pathExists).foldl
    (fun df pf =>
      let allMols := env.getAllMolecules (ablationTemplate pf.1 pf.2)
      let molecules := env.getAllValidMolecules allMols
      if molecules.length = 0 then df
      else df ++ [⟨pf.1, pf.2, env.computeValidity allMols molecules,
                   env.computeUniqueness molecules⟩])
    []

/-- The valid subset of the molecules loaded for one `(pit, fait)` setting:
`get_all_valid_molecules(get_all_molecules(path))`. -/
def ablationValidMolecules {Molecule : Type} (env : MetricsEnv Molecule)
    (pf : String × String) : List Molecule :=
  env.getAllValidMolecules (env.getAllMolecules (ablationTemplate pf.1 pf.2))

/-- The row the temperature-ablation notebook appends for one setting. -/
def ablationRow {Molecule : Type} (env : MetricsEnv Molecule)
    (pf : String × String) : TempRow :=
  ⟨pf.1, pf.2,
   env.computeValidity (env.getAllMolecules (ablationTemplate pf.1 pf.2))
     (ablationValidMolecules env pf),
   env.computeUniqueness (ablationValidMolecules env pf)⟩

/-- The position-temperature plot cell: rows with `fait == "1.0"`, plotting
`uniqueness * 100` on the x-axis and `validity * 100` on the y-axis
(returned here as `(pit, 100 * validity, 100 * uniqueness)`). -/
def plottedPositionTemperaturePoints {Molecule : Type} (env : MetricsEnv Molecule)
    (pathExists : String → Bool) : List (String × ℚ × ℚ) :=
  ((allResultsDf env pathExists).filter fun r => r.fait == "1.0").map
    fun r => (r.pit, 100 * r.validity, 100 * r.uniqueness)

/-- Abstract metric functions used by the OpenBabel notebook. -/
structure OpenBabelEnv (Molecule : Type) where
  getAllMoleculesWithOpenbabel : String → List Molecule
  getAllValidMoleculesWithOpenbabel : List Molecule → List Molecule
  computeValidity : List Molecule → List Molecule → ℚ
  computeUniquenessWithOpenbabel : List Molecule → ℚ

/-- Dictionary `generated_paths` of the OpenBabel notebook: the five uncommented
model/path pairs, in order. -/
def openBabelGeneratedPaths : List (String × String) :=
  [("QM9", "/Users/ameyad/Documents/spherical-harmonic-net/others/qm9_xyz"),
   ("Symphony",
    "/Users/ameyad/Documents/spherical-harmonic-net/analyses/analysed_workdirs/qm9_bessel_embedding_attempt6_edm_splits/e3schnet_and_nequip/interactions=3/l=5/position_channels=2/channels=64/fait=1.0/pit=1.0/step=7530000/molecules"),
   ("EDM", "/Users/ameyad/Documents/spherical-harmonic-net/others/edm-resampled/samples_edm_xyz"),
   ("GSchNet", "/Users/ameyad/Documents/spherical-harmonic-net/others/gschnet-edm-retrained/molecules"),
   ("GSphereNet", "/Users/ameyad/Documents/spherical-harmonic-net/others/gspherenet/molecules")]

/-- The configured model names of the OpenBabel notebook. -/
def openBabelModels : List String := openBabelGeneratedPaths.map Prod.fst

/-- DataFrame `validity_openbabel_df`: one `(model, validity_fraction)` row per model,
with `compute_validity(all_generated_molecules_openbabel[model], molecules)`
for `molecules` the valid subset. -/
def validityOpenbabelDf {Molecule : Type} (env : OpenBabelEnv Molecule) :
    List (String × ℚ) :=
  openBabelGeneratedPaths.foldl
    (fun df mp =>
      let allMols := env.getAllMoleculesWithOpenbabel mp.2
      let molecules := env.getAllValidMoleculesWithOpenbabel allMols
      df ++ [(mp.1, env.computeValidity allMols molecules)])
    []

/-- DataFrame `uniqueness_openbabel_df`: one `(model, uniqueness_fraction)` row per
model, with `compute_uniqueness_with_openbabel(molecules)`. -/
def uniquenessOpenbabelDf {Molecule : Type} (env : OpenBabelEnv Molecule) :
    List (String × ℚ) :=
  openBabelGeneratedPaths.foldl
    (fun df mp =>
      let allMols := env.getAllMoleculesWithOpenbabel mp.2
      let molecules := env.getAllValidMoleculesWithOpenbabel allMols
      df ++ [(mp.1, env.computeUniquenessWithOpenbabel molecules)])
    []

/-- The printed LaTeX validity table: each fraction is multiplied by 100
(`formatted_validity_df *= 100`) and rendered with two decimals
(`applymap(lambda x: f"x:.2f")`). -/
def formattedValidityOpenbabel {Molecule : Type} (env : OpenBabelEnv Molecule) :
    List (String × ℚ) :=
  (validityOpenbabelDf env).map fun mv => (mv.1, roundToCents (100 * mv.2))

/-- The printed LaTeX uniqueness table: each fraction is multiplied by 100,
rounded with `round(2)`, and then rendered with two decimals. -/
def formattedUniquenessOpenbabel {Molecule : Type} (env : OpenBabelEnv Molecule) :
    List (String × ℚ) :=
  (uniquenessOpenbabelDf env).map fun mv => (mv.1, roundToCents (roundToCents (100 * mv.2)))

/-! ## Part 4: concrete instantiations used as witnesses -/

/-- A trivial sphere-optimization environment over unit carriers (rng keys are
naturals, `fold_in` is addition). -/
def unitSphereEnv : SphereEnv Unit Unit Unit Unit Unit Unit ℕ Unit where
  averageTargetDistributions := fun _ _ _ => ()
  prngKey := fun n => n
  foldIn := fun r s => r + s
  s2Irreps := fun _ => ()
  normal := fun _ _ _ => ()
  adam := fun _ => ⟨fun _ => (), fun _ _ _ => ((), ())⟩
  applyUpdates := fun _ _ => ()
  logCoeffsToLogits := fun _ _ _ _ => ()
  klDivergenceOnSpheres := fun _ _ => 0
  grad := fun _ _ => ()
  normOf := fun _ => 0
  arr := fun _ => ()
  coeffsToDistribution := fun _ _ _ => ()
  rmseOfSamples := fun _ _ _ _ => (0, 0)

/-- A metrics environment in which every directory holds no molecules. -/
def emptyMetricsEnv : MetricsEnv Unit where
  getAllMolecules := fun _ => []
  getAllValidMolecules := fun _ => []
  computeValidity := fun _ _ => 0
  computeUniqueness := fun _ => 0

/-- A metrics environment in which every directory holds one valid molecule. -/
def singletonMetricsEnv : MetricsEnv Unit where
  getAllMolecules := fun _ => [()]
  getAllValidMolecules := fun ms => ms
  computeValidity := fun _ _ => 1 / 2
  computeUniqueness := fun _ => 1 / 3

/-- An OpenBabel environment with one valid molecule everywhere. -/
def unitOpenBabelEnv : OpenBabelEnv Unit where
  getAllMoleculesWithOpenbabel := fun _ => [()]
  getAllValidMoleculesWithOpenbabel := fun ms => ms
  computeValidity := fun _ _ => 1 / 2
  computeUniquenessWithOpenbabel := fun _ => 1 / 3

/-- The constant-true directory-existence oracle. -/
def allPathsExist : String → Bool := fun _ => true

/-! ## Part 5: theorems -/

section SphereOptLemmas

variable {Signal Dist Irreps Coeffs Arr Points Rng OptState : Type}

/-- Loop invariant: after folding over `range n`, the running state is
`trainStateAt n` and the dictionary holds exactly the records of the
multiples of 10 below `n`, in order. -/
theorem optLoop_spec (env : SphereEnv Signal Dist Irreps Coeffs Arr Points Rng OptState)
    (pts : Points) (true_signal : Signal)
    (lmax position_channels res_alpha res_beta : ℕ) (n : ℕ) :
    (List.range n).foldl
      (optStep env pts (env.averageTargetDistributions true_signal res_alpha res_beta)
        (env.prngKey 0) res_alpha res_beta)
      ((trainStateAt env true_signal lmax position_channels res_alpha res_beta 0), []) =
    (trainStateAt env true_signal lmax position_channels res_alpha res_beta n,
      ((List.range n).filter (fun s => s % 10 = 0)).map
        (fun s => (s, recordAt env pts true_signal lmax position_channels res_alpha res_beta s))) := by
  induction n with
  | zero => rfl
  | succ n ih =>
    rw [List.range_succ, List.foldl_append, ih, List.filter_append, List.map_append]
    by_cases h : n % 10 = 0
    · simp only [List.foldl_cons, List.foldl_nil, optStep, h, if_pos, List.filter_cons,
        decide_eq_true_eq, h, if_true]
      simp [trainStateAt, recordAt, h]
    · simp only [List.foldl_cons, List.foldl_nil, optStep, h, if_neg, List.filter_cons,
        decide_eq_true_eq, if_false]
      simp [trainStateAt, recordAt, h]

/-- Function `optimize_coeffs` returns exactly the records of the multiples of 10 below
`num_training_steps`, in increasing insertion order. -/
theorem optimize_coeffs_eq
    (env : SphereEnv Signal Dist Irreps Coeffs Arr Points Rng OptState)
    (pts : Points) (true_signal : Signal)
    (lmax position_channels res_alpha res_beta n : ℕ) :
    optimize_coeffs env pts true_signal lmax position_channels res_alpha res_beta n =
    ((List.range n).filter (fun s => s % 10 = 0)).map
      (fun s => (s, recordAt env pts true_signal lmax position_channels res_alpha res_beta s)) := by
  unfold optimize_coeffs
  show (List.foldl
      (optStep env pts (env.averageTargetDistributions true_signal res_alpha res_beta)
        (env.prngKey 0) res_alpha res_beta)
      (trainStateAt env true_signal lmax position_channels res_alpha res_beta 0, [])
      (List.range n)).2 = _
  rw [optLoop_spec]

end SphereOptLemmas

/-- Sequential execution with `|| break 10` runs exactly the maximal failure-free
prefix, plus the first failing launch if there is one. -/
theorem runWithBreakAll_eq (fails : SymphonyLaunch → Bool) (Ls : List SymphonyLaunch) :
    runWithBreakAll fails Ls =
      Ls.takeWhile (fun L => !fails L) ++ (Ls.dropWhile (fun L => !fails L)).take 1 := by
  induction Ls with
  | nil => rfl
  | cons L Ls ih =>
    by_cases h : fails L
    · simp [runWithBreakAll, List.takeWhile_cons, List.dropWhile_cons, h]
    · simp [runWithBreakAll, List.takeWhile_cons, List.dropWhile_cons, h, ih]

/-- Accumulator form of the temperature-ablation row loop: settings with an
empty valid-molecule list are dropped, the rest are mapped to their rows. -/
theorem allResultsDf_foldl_gen {Molecule : Type} (env : MetricsEnv Molecule)
    (keys : List (String × String)) (init : List TempRow) :
    keys.foldl
      (fun df pf =>
        let allMols := env.getAllMolecules (ablationTemplate pf.1 pf.2)
        let molecules := env.getAllValidMolecules allMols
        if molecules.length = 0 then df
        else df ++ [⟨pf.1, pf.2, env.computeValidity allMols molecules,
                     env.computeUniqueness molecules⟩])
      init =
    init ++ (keys.filter fun pf => (ablationValidMolecules env pf).length ≠ 0).map
      (ablationRow env) := by
  induction keys generalizing init with
  | nil => simp
  | cons pf rest ih =>
    simp only [List.foldl_cons, List.filter_cons]
    by_cases h : (env.getAllValidMolecules (env.getAllMolecules (ablationTemplate pf.1 pf.2))).length = 0
    · rw [ih]
      simp [ablationValidMolecules, h]
    · rw [ih]
      simp [ablationValidMolecules, ablationRow, h]

/-- DataFrame `all_results_df` is the list of rows of the loaded settings having at
least one valid molecule, in grid order. -/
theorem allResultsDf_eq {Molecule : Type} (env : MetricsEnv Molecule)
    (pathExists : String → Bool) :
    allResultsDf env pathExists =
      ((generatedPathsKeys pathExists).filter
        fun pf => (ablationValidMolecules env pf).length ≠ 0).map (ablationRow env) := by
  unfold allResultsDf
  rw [allResultsDf_foldl_gen]
  simp

/-- Membership characterization of `all_results_df` rows. -/
theorem mem_allResultsDf {Molecule : Type} (env : MetricsEnv Molecule)
    (pathExists : String → Bool) (r : TempRow) :
    r ∈ allResultsDf env pathExists ↔
      ∃ pf, pf ∈ generatedPathsKeys pathExists ∧
        (ablationValidMolecules env pf).length ≠ 0 ∧ r = ablationRow env pf := by
  rw [allResultsDf_eq]
  simp only [List.mem_map, List.mem_filter, decide_eq_true_eq]
  constructor
  · rintro ⟨pf, ⟨hk, hv⟩, hr⟩
    exact ⟨pf, hk, hv, hr.symm⟩
  · rintro ⟨pf, hk, hv, hr⟩
    exact ⟨pf, ⟨hk, hv⟩, hr.symm⟩

/-- Rounding to two decimals is idempotent: `round(2)` followed by a `.2f`
rendering displays the same numeral as the `.2f` rendering alone. -/
theorem roundToCents_roundToCents (x : ℚ) :
    roundToCents (roundToCents x) = roundToCents x := by
  unfold roundToCents
  rw [show (100 : ℚ) * ((round (100 * x) : ℚ) / 100) = ((round (100 * x) : ℤ) : ℚ) by ring]
  rw [round_intCast]

/-- C1: every call of `optimize_coeffs` records, per step, a loss equal to the
KL divergence between the target distribution (computed from the true signal
at the given resolution) and the distribution induced by the current
coefficients via `log_coeffs_to_logits`, and each step updates the
coefficients by applying the `optax.adam(1e-3)` update for the gradient of
that loss. -/
theorem optimize_coeffs_minimizes_kl_with_adam
    (Signal Dist Irreps Coeffs Arr Points Rng OptState : Type)
    (env : SphereEnv Signal Dist Irreps Coeffs Arr Points Rng OptState)
    (pts : Points) (ts : Signal) (lmax pc ra rb n : ℕ) :
    optimize_coeffs env pts ts lmax pc ra rb n =
      ((List.range n).filter (fun s => s % 10 = 0)).map
        (fun s => (s, recordAt env pts ts lmax pc ra rb s)) ∧
    (∀ step, (recordAt env pts ts lmax pc ra rb step).lossValue =
      env.klDivergenceOnSpheres (env.averageTargetDistributions ts ra rb)
        (env.logCoeffsToLogits (trainStateAt env ts lmax pc ra rb step).1 rb ra 1)) ∧
    (∀ step,
      trainStateAt env ts lmax pc ra rb (step + 1) =
        (env.applyUpdates (trainStateAt env ts lmax pc ra rb step).1
          ((env.adam (1 / 1000)).update
            (env.grad (loss_fn env (env.averageTargetDistributions ts ra rb) ra rb)
              (trainStateAt env ts lmax pc ra rb step).1)
            (trainStateAt env ts lmax pc ra rb step).2
            (trainStateAt env ts lmax pc ra rb step).1).1,
         ((env.adam (1 / 1000)).update
            (env.grad (loss_fn env (env.averageTargetDistributions ts ra rb) ra rb)
              (trainStateAt env ts lmax pc ra rb step).1)
            (trainStateAt env ts lmax pc ra rb step).2
            (trainStateAt env ts lmax pc ra rb step).1).2)) :=
  ⟨optimize_coeffs_eq env pts ts lmax pc ra rb n, fun _ => rfl, fun _ => rfl⟩

/-- C2: the training loop of `optimize_coeffs` initializes the coefficients by
normal sampling, runs a gradient update through the `optax.adam` optimizer on
every step, and every 10 steps evaluates the RMSE-of-samples distance metric
against the held-out target points. -/
theorem optimize_coeffs_training_loop_structure
    (Signal Dist Irreps Coeffs Arr Points Rng OptState : Type)
    (env : SphereEnv Signal Dist Irreps Coeffs Arr Points Rng OptState)
    (pts : Points) (ts : Signal) (lmax pc ra rb n : ℕ) :
    (trainStateAt env ts lmax pc ra rb 0).1 =
      env.normal (env.s2Irreps lmax) (env.prngKey 0) pc ∧
    (trainStateAt env ts lmax pc ra rb 0).2 =
      (env.adam (1 / 1000)).init (env.normal (env.s2Irreps lmax) (env.prngKey 0) pc) ∧
    optimize_coeffs env pts ts lmax pc ra rb n =
      ((List.range n).filter (fun s => s % 10 = 0)).map
        (fun s => (s, recordAt env pts ts lmax pc ra rb s)) ∧
    (∀ step,
      (recordAt env pts ts lmax pc ra rb step).meanDist =
        (env.rmseOfSamples
          (env.coeffsToDistribution (trainStateAt env ts lmax pc ra rb (step + 1)).1 ra rb)
          pts (env.foldIn (env.prngKey 0) step) 1000).1 ∧
      (recordAt env pts ts lmax pc ra rb step).stdDist =
        (env.rmseOfSamples
          (env.coeffsToDistribution (trainStateAt env ts lmax pc ra rb (step + 1)).1 ra rb)
          pts (env.foldIn (env.prngKey 0) step) 1000).2) :=
  ⟨rfl, rfl, optimize_coeffs_eq env pts ts lmax pc ra rb n, fun _ => ⟨rfl, rfl⟩⟩

/-- C9: for `num_training_steps ≥ 1` the keys of the returned `training_dict`
are exactly the multiples of 10 below `num_training_steps`, in increasing
order, and the first key is 0, so `assert first_step == 0` never fails. -/
theorem training_dict_keys_multiples_of_ten
    (Signal Dist Irreps Coeffs Arr Points Rng OptState : Type)
    (env : SphereEnv Signal Dist Irreps Coeffs Arr Points Rng OptState)
    (pts : Points) (ts : Signal) (lmax pc ra rb n : ℕ) (h : 1 ≤ n) :
    (∀ k, k ∈ (optimize_coeffs env pts ts lmax pc ra rb n).map Prod.fst ↔
      (k % 10 = 0 ∧ k < n)) ∧
    List.Sorted (· < ·) ((optimize_coeffs env pts ts lmax pc ra rb n).map Prod.fst) ∧
    ((optimize_coeffs env pts ts lmax pc ra rb n).map Prod.fst).head? = some 0 := by
  have hkeys : (optimize_coeffs env pts ts lmax pc ra rb n).map Prod.fst =
      (List.range n).filter (fun s => s % 10 = 0) := by
    rw [optimize_coeffs_eq, List.map_map]
    exact List.map_id ((List.range n).filter fun s => s % 10 = 0)
  rw [hkeys]
  refine ⟨fun k => ?_, (List.sorted_lt_range n).filter _, ?_⟩
  · simp [List.mem_filter, List.mem_range, and_comm]
  · obtain ⟨m, rfl⟩ : ∃ m, n = m + 1 := ⟨n - 1, (Nat.succ_pred_eq_of_pos h).symm⟩
    rw [List.range_succ_eq_map, List.filter_cons]
    simp

/-- C10: `optimize_coeffs` is deterministic — two runs with equal arguments
(the external environment and the notebook global `random_points` being the
fixed ambient context) return identical `training_dict`s entry for entry. -/
theorem optimize_coeffs_deterministic
    (Signal Dist Irreps Coeffs Arr Points Rng OptState : Type)
    (env : SphereEnv Signal Dist Irreps Coeffs Arr Points Rng OptState)
    (pts : Points) (a b : Signal × ℕ × ℕ × ℕ × ℕ × ℕ) (h : a = b) :
    optimize_coeffs env pts a.1 a.2.1 a.2.2.1 a.2.2.2.1 a.2.2.2.2.1 a.2.2.2.2.2 =
      optimize_coeffs env pts b.1 b.2.1 b.2.2.1 b.2.2.2.1 b.2.2.2.2.1 b.2.2.2.2.2 := by
  rw [h]

/-- Witness for C9 at `num_training_steps = 11` over the trivial environment. -/
theorem training_dict_keys_multiples_of_ten_witness :
    (1 : ℕ) ≤ 11 ∧
    ((∀ k, k ∈ (optimize_coeffs unitSphereEnv () () 5 2 9 10 11).map Prod.fst ↔
        (k % 10 = 0 ∧ k < 11)) ∧
      List.Sorted (· < ·) ((optimize_coeffs unitSphereEnv () () 5 2 9 10 11).map Prod.fst) ∧
      ((optimize_coeffs unitSphereEnv () () 5 2 9 10 11).map Prod.fst).head? = some 0) :=
  ⟨by decide,
   training_dict_keys_multiples_of_ten Unit Unit Unit Unit Unit Unit ℕ Unit
     unitSphereEnv () () 5 2 9 10 11 (by decide)⟩

/-- Witness for C10 at concrete equal argument tuples over the trivial
environment. -/
theorem optimize_coeffs_deterministic_witness :
    ((), 5, 2, 9, 10, 3) = (((), 5, 2, 9, 10, 3) : Unit × ℕ × ℕ × ℕ × ℕ × ℕ) ∧
    optimize_coeffs unitSphereEnv () () 5 2 9 10 3 =
      optimize_coeffs unitSphereEnv () () 5 2 9 10 3 :=
  ⟨rfl,
   optimize_coeffs_deterministic Unit Unit Unit Unit Unit Unit ℕ Unit
     unitSphereEnv () ((), 5, 2, 9, 10, 3) ((), 5, 2, 9, 10, 3) rfl⟩

/-- C3: every hyperparameter of the grid list — learning-rate schedule,
channel count, interaction count, spherical-harmonic degree, and
focus/position-inverse-temperature — is looped over by some sweep script
when launching `python -m symphony` runs. -/
theorem sweep_scripts_cover_hyperparameter_grids :
    (∀ s ∈ lrSchedules, ∃ L ∈ learningRatesLaunches, L.schedule = some s) ∧
    (∀ c ∈ tetrisChannelValues, ∃ L ∈ tetrisLaunches, L.numChannels = c) ∧
    (∀ i ∈ tetrisInteractionValues, ∃ L ∈ tetrisLaunches, L.numInteractions = i) ∧
    (∀ l ∈ tetrisEllValues, ∃ L ∈ tetrisLaunches, L.maxEll = l) ∧
    (∀ p ∈ temperaturePitValues, ∃ L ∈ temperatureSweepLaunches, L.pit = some p) ∧
    (∀ f ∈ temperatureFaitValues, ∃ L ∈ temperatureSweepLaunches, L.fait = some f) := by
  refine ⟨?_, ?_, ?_, ?_, ?_, ?_⟩ <;> decide

/-- Witness for C3: the learning-rates sweep launches a run with schedule
`sgdr`, and the tetris sweep a run with spherical-harmonic degree 4. -/
theorem sweep_scripts_cover_hyperparameter_grids_witness :
    "sgdr" ∈ lrSchedules ∧ (4 : ℕ) ∈ tetrisEllValues ∧
    (∃ L ∈ learningRatesLaunches, L.schedule = some "sgdr") ∧
    (∃ L ∈ tetrisLaunches, L.maxEll = 4) :=
  ⟨by decide, by decide,
   sweep_scripts_cover_hyperparameter_grids.1 "sgdr" (by decide),
   sweep_scripts_cover_hyperparameter_grids.2.2.2.1 4 (by decide)⟩

/-- C4 counterexample: in the learning-rates sweep, a nonzero exit status of
the very first launch (`constant` schedule, `mace` config) changes which of
the remaining grid points are launched — only 1 of the 4 grid launches runs,
against all 4 when every launch succeeds — because `|| break 10` exits all
enclosing loops. -/
theorem nonzero_exit_changes_remaining_launches :
    runLearningRatesSweep failFirstLaunch ≠ runLearningRatesSweep (fun _ => false) ∧
    (runLearningRatesSweep failFirstLaunch).length = 1 ∧
    (runLearningRatesSweep (fun _ => false)).length = 4 := by
  refine ⟨?_, ?_, ?_⟩ <;> decide

/-- C4 (amended): in `tetris.sh` every launch is backgrounded, so exit
statuses change nothing; in the learning-rates sweep, `|| break 10` makes a
nonzero exit end the sweep, so the launches executed are exactly the
failure-free prefix of the grid plus the first failing launch. -/
theorem sweep_failure_handling (fails : SymphonyLaunch → Bool) :
    runTetrisSweep fails = tetrisLaunches ∧
    runLearningRatesSweep fails =
      learningRatesLaunches.takeWhile (fun L => !fails L) ++
        (learningRatesLaunches.dropWhile (fun L => !fails L)).take 1 :=
  ⟨rfl, runWithBreakAll_eq fails learningRatesLaunches⟩

/-- C5: in the tetris sweep every run for degree `l` is pinned to CUDA device
`l - 1`, so runs for distinct degrees occupy distinct GPUs; in the
learning-rates sweep every run is pinned to CUDA device 6. -/
theorem cuda_device_assignment :
    (∀ L ∈ tetrisLaunches, L.cudaDevice = L.maxEll - 1) ∧
    (∀ l1 ∈ tetrisEllValues, ∀ l2 ∈ tetrisEllValues, l1 ≠ l2 →
      ∀ L1 ∈ tetrisLaunches, ∀ L2 ∈ tetrisLaunches,
        L1.maxEll = l1 → L2.maxEll = l2 → L1.cudaDevice ≠ L2.cudaDevice) ∧
    (∀ L ∈ learningRatesLaunches, L.cudaDevice = 6) := by
  refine ⟨?_, ?_, ?_⟩ <;> decide

/-- Witness for C5: the degree-1 and degree-2 tetris launches use distinct
devices, and the first learning-rates launch uses device 6. -/
theorem cuda_device_assignment_witness :
    ({ config := "configs/tetris/nequip.py", schedule := none, maxEll := 1,
       numChannels := 64, numInteractions := 2, pit := none, fait := none,
       cudaDevice := 0, background := true } : SymphonyLaunch) ∈ tetrisLaunches ∧
    ({ config := "configs/tetris/nequip.py", schedule := none, maxEll := 2,
       numChannels := 64, numInteractions := 2, pit := none, fait := none,
       cudaDevice := 1, background := true } : SymphonyLaunch) ∈ tetrisLaunches ∧
    ({ config := "configs/qm9/mace.py", schedule := some "constant", maxEll := 2,
       numChannels := 32, numInteractions := 4, pit := none, fait := none,
       cudaDevice := 6, background := false } : SymphonyLaunch) ∈ learningRatesLaunches ∧
    (0 : ℕ) ≠ 1 ∧ (6 : ℕ) = 6 :=
  ⟨by decide, by decide, by decide,
   cuda_device_assignment.2.1 1 (by decide) 2 (by decide) (by decide)
     { config := "configs/tetris/nequip.py", schedule := none, maxEll := 1,
       numChannels := 64, numInteractions := 2, pit := none, fait := none,
       cudaDevice := 0, background := true } (by decide)
     { config := "configs/tetris/nequip.py", schedule := none, maxEll := 2,
       numChannels := 64, numInteractions := 2, pit := none, fait := none,
       cudaDevice := 1, background := true } (by decide) rfl rfl,
   cuda_device_assignment.2.2
     { config := "configs/qm9/mace.py", schedule := some "constant", maxEll := 2,
       numChannels := 32, numInteractions := 4, pit := none, fait := none,
       cudaDevice := 6, background := false } (by decide)⟩

/-- C6 counterexample: with every directory present but every molecule set
empty, every `(pit, fait)` setting is loaded yet no setting receives a
results row, so "one results row per loaded setting" fails. -/
theorem temperature_row_missing_for_empty_model :
    ¬ (∀ pf ∈ generatedPathsKeys allPathsExist,
        ∃ r ∈ allResultsDf emptyMetricsEnv allPathsExist,
          r.pit = pf.1 ∧ r.fait = pf.2) := by
  intro hcl
  obtain ⟨r, hr, -⟩ := hcl ("0.01", "0.01") (by decide)
  have hnil : allResultsDf emptyMetricsEnv allPathsExist = [] := by decide
  rw [hnil] at hr
  exact (List.not_mem_nil r) hr

/-- C6 (amended): every loaded `(pit, fait)` setting with at least one valid
molecule contributes a results row carrying both the validity and the
uniqueness metric, and the OpenBabel notebook prints a validity table and a
uniqueness table whose rows are exactly the configured models. -/
theorem metrics_rows_and_tables_cover_models :
    (∀ (Molecule : Type) (env : MetricsEnv Molecule) (pathExists : String → Bool),
      ∀ pf ∈ generatedPathsKeys pathExists,
        (ablationValidMolecules env pf).length ≠ 0 →
        ablationRow env pf ∈ allResultsDf env pathExists ∧
        (ablationRow env pf).validity =
          env.computeValidity (env.getAllMolecules (ablationTemplate pf.1 pf.2))
            (ablationValidMolecules env pf) ∧
        (ablationRow env pf).uniqueness =
          env.computeUniqueness (ablationValidMolecules env pf)) ∧
    (∀ (Molecule : Type) (env : OpenBabelEnv Molecule),
      (formattedValidityOpenbabel env).map Prod.fst = openBabelModels ∧
      (formattedUniquenessOpenbabel env).map Prod.fst = openBabelModels) := by
  constructor
  · intro M env pe pf hmem hne
    refine ⟨?_, rfl, rfl⟩
    rw [mem_allResultsDf]
    exact ⟨pf, hmem, hne, rfl⟩
  · intro M env
    exact ⟨rfl, rfl⟩

/-- Witness for the amended C6 at the singleton-molecule environment and the
setting `(pit, fait) = ("0.01", "0.01")`. -/
theorem metrics_rows_and_tables_cover_models_witness :
    (("0.01", "0.01") ∈ generatedPathsKeys allPathsExist) ∧
    ((ablationValidMolecules singletonMetricsEnv ("0.01", "0.01")).length ≠ 0) ∧
    (ablationRow singletonMetricsEnv ("0.01", "0.01") ∈
        allResultsDf singletonMetricsEnv allPathsExist ∧
      (ablationRow singletonMetricsEnv ("0.01", "0.01")).validity =
        singletonMetricsEnv.computeValidity
          (singletonMetricsEnv.getAllMolecules (ablationTemplate "0.01" "0.01"))
          (ablationValidMolecules singletonMetricsEnv ("0.01", "0.01")) ∧
      (ablationRow singletonMetricsEnv ("0.01", "0.01")).uniqueness =
        singletonMetricsEnv.computeUniqueness
          (ablationValidMolecules singletonMetricsEnv ("0.01", "0.01"))) :=
  ⟨by decide, by decide,
   metrics_rows_and_tables_cover_models.1 Unit singletonMetricsEnv allPathsExist
     ("0.01", "0.01") (by decide) (by decide)⟩

/-- C7: the numbers printed in the OpenBabel LaTeX tables are exactly 100
times the fractions returned by the external metric functions, rendered to
two decimal places (for the uniqueness table the extra `round(2)` changes
nothing), and the values plotted by the temperature-ablation notebook are
exactly 100 times the fractions returned by `compute_validity` and
`compute_uniqueness`. -/
theorem printed_metrics_are_rescaled_fractions :
    (∀ (Molecule : Type) (env : OpenBabelEnv Molecule),
      formattedValidityOpenbabel env = openBabelGeneratedPaths.map (fun mp =>
        (mp.1, roundToCents (100 * env.computeValidity
          (env.getAllMoleculesWithOpenbabel mp.2)
          (env.getAllValidMoleculesWithOpenbabel (env.getAllMoleculesWithOpenbabel mp.2))))) ∧
      formattedUniquenessOpenbabel env = openBabelGeneratedPaths.map (fun mp =>
        (mp.1, roundToCents (100 * env.computeUniquenessWithOpenbabel
          (env.getAllValidMoleculesWithOpenbabel (env.getAllMoleculesWithOpenbabel mp.2)))))) ∧
    (∀ (Molecule : Type) (env : MetricsEnv Molecule) (pathExists : String → Bool),
      ∀ pt ∈ plottedPositionTemperaturePoints env pathExists,
        ∃ pf ∈ generatedPathsKeys pathExists,
          pt.2.1 = 100 * env.computeValidity
            (env.getAllMolecules (ablationTemplate pf.1 pf.2))
            (ablationValidMolecules env pf) ∧
          pt.2.2 = 100 * env.computeUniqueness (ablationValidMolecules env pf)) := by
  constructor
  · intro M env
    refine ⟨rfl, ?_⟩
    simp only [formattedUniquenessOpenbabel, roundToCents_roundToCents]
    rfl
  · intro M env pe pt hpt
    unfold plottedPositionTemperaturePoints at hpt
    obtain ⟨r, hrf, rfl⟩ := List.mem_map.mp hpt
    have hr : r ∈ allResultsDf env pe := (List.mem_filter.mp hrf).1
    rw [mem_allResultsDf] at hr
    obtain ⟨pf, hk, -, rfl⟩ := hr
    exact ⟨pf, hk, rfl, rfl⟩

/-- Witness for C7: the plotted point of the setting `("0.01", "1.0")` in the
singleton-molecule environment is `(50, 100/3)`, i.e. 100 times the metric
fractions `1/2` and `1/3`. -/
theorem printed_metrics_are_rescaled_fractions_witness :
    (("0.01", (50 : ℚ), (100 / 3 : ℚ)) ∈
        plottedPositionTemperaturePoints singletonMetricsEnv allPathsExist) ∧
    (∃ pf ∈ generatedPathsKeys allPathsExist,
      (50 : ℚ) = 100 * singletonMetricsEnv.computeValidity
        (singletonMetricsEnv.getAllMolecules (ablationTemplate pf.1 pf.2))
        (ablationValidMolecules singletonMetricsEnv pf) ∧
      (100 / 3 : ℚ) = 100 * singletonMetricsEnv.computeUniqueness
        (ablationValidMolecules singletonMetricsEnv pf)) := by
  have hrow : ablationRow singletonMetricsEnv ("0.01", "1.0") ∈
      allResultsDf singletonMetricsEnv allPathsExist :=
    (mem_allResultsDf singletonMetricsEnv allPathsExist _).mpr
      ⟨("0.01", "1.0"), by decide, by decide, rfl⟩
  have hmem : ("0.01", (50 : ℚ), (100 / 3 : ℚ)) ∈
      plottedPositionTemperaturePoints singletonMetricsEnv allPathsExist := by
    unfold plottedPositionTemperaturePoints
    refine List.mem_map.mpr ⟨ablationRow singletonMetricsEnv ("0.01", "1.0"),
      List.mem_filter.mpr ⟨hrow, by decide⟩, ?_⟩
    show ("0.01", 100 * ((1 : ℚ) / 2), 100 * ((1 : ℚ) / 3)) =
      ("0.01", (50 : ℚ), (100 / 3 : ℚ))
    norm_num
  exact ⟨hmem,
    printed_metrics_are_rescaled_fractions.2 Unit singletonMetricsEnv allPathsExist
      ("0.01", (50 : ℚ), (100 / 3 : ℚ)) hmem⟩

/-- C8: a `(pit, fait)` setting whose directory does not exist or whose
molecule set contains no valid molecule contributes no row to
`all_results_df`, and every row that does appear comes from a setting whose
directory existed and whose molecule set held at least one valid molecule. -/
theorem temperature_settings_skipped_silently
    (Molecule : Type) (env : MetricsEnv Molecule) (pathExists : String → Bool) :
    (∀ pit fait, (pit, fait) ∈ ablationGrid →
      (pathExists (ablationTemplate pit fait) = false ∨
        ablationValidMolecules env (pit, fait) = []) →
      ∀ r ∈ allResultsDf env pathExists, ¬(r.pit = pit ∧ r.fait = fait)) ∧
    (∀ r ∈ allResultsDf env pathExists,
      pathExists (ablationTemplate r.pit r.fait) = true ∧
      ablationValidMolecules env (r.pit, r.fait) ≠ []) := by
  constructor
  · rintro pit fait hg hskip r hr ⟨hp, hf⟩
    rw [mem_allResultsDf] at hr
    obtain ⟨⟨p1, p2⟩, hk, hne, rfl⟩ := hr
    have hp1 : p1 = pit := hp
    have hp2 : p2 = fait := hf
    subst hp1; subst hp2
    have hexists : pathExists (ablationTemplate p1 p2) = true :=
      (List.mem_filter.mp hk).2
    rcases hskip with hmiss | hempty
    · rw [hexists] at hmiss
      simp at hmiss
    · rw [hempty] at hne
      exact hne rfl
  · intro r hr
    rw [mem_allResultsDf] at hr
    obtain ⟨⟨p1, p2⟩, hk, hne, rfl⟩ := hr
    refine ⟨(List.mem_filter.mp hk).2, ?_⟩
    intro hempty
    have hvalid : ablationValidMolecules env (p1, p2) = [] := hempty
    rw [hvalid] at hne
    exact hne rfl

/-- Witness for C8: under the all-empty environment the setting
`("0.01", "0.01")` is skipped, and under the singleton environment the
loaded row of `("0.1", "1.0")` came from an existing directory with a
nonempty valid-molecule set. -/
theorem temperature_settings_skipped_silently_witness :
    (("0.01", "0.01") ∈ ablationGrid) ∧
    (ablationValidMolecules emptyMetricsEnv ("0.01", "0.01") = []) ∧
    (∀ r ∈ allResultsDf emptyMetricsEnv allPathsExist,
      ¬(r.pit = "0.01" ∧ r.fait = "0.01")) ∧
    (allPathsExist (ablationTemplate "0.1" "1.0") = true ∧
      ablationValidMolecules singletonMetricsEnv ("0.1", "1.0") ≠ []) := by
  have hrow : ablationRow singletonMetricsEnv ("0.1", "1.0") ∈
      allResultsDf singletonMetricsEnv allPathsExist :=
    (mem_allResultsDf singletonMetricsEnv allPathsExist _).mpr
      ⟨("0.1", "1.0"), by decide, by decide, rfl⟩
  exact ⟨by decide, rfl,
    (temperature_settings_skipped_silently Unit emptyMetricsEnv allPathsExist).1
      "0.01" "0.01" (by decide) (Or.inr rfl),
    (temperature_settings_skipped_silently Unit singletonMetricsEnv allPathsExist).2
      (ablationRow singletonMetricsEnv ("0.1", "1.0")) hrow⟩
